import Mathlib

/-!
Verification development for the cypress-action-cable mock engine.

The definitions below are a shallow embedding of `src/mocks/MockActionCable.ts`
(the featured consumer variant with message history and network simulation,
the simple variant, and the `ActionCableMock` protocol class).  JavaScript
objects used as channel identifiers are modelled as insertion-ordered
association lists, `JSON.stringify` is modelled insertion-order faithfully
(it does not sort keys), and JavaScript exceptions are modelled with the
`Except` monad.  Timestamps produced by `Date.now()` are irrelevant to every
property below and are omitted from history entries.
-/

namespace CypressActionCable

/-- Model of a JavaScript JSON value.  Objects are insertion-ordered lists of
key/value fields, exactly the data `JSON.stringify` consumes. -/
inductive Json where
  | null : Json
  | bool (b : Bool) : Json
  | num (n : Int) : Json
  | str (s : String) : Json
  | arr (elems : List Json) : Json
  | obj (fields : List (String × Json)) : Json

mutual

/-- Decidable equality of JSON values (the automatic derivation does not
handle the nesting through lists). -/
def Json.decEq : (a b : Json) → Decidable (a = b)
  | .null, .null => isTrue rfl
  | .null, .bool _ => isFalse (by simp)
  | .null, .num _ => isFalse (by simp)
  | .null, .str _ => isFalse (by simp)
  | .null, .arr _ => isFalse (by simp)
  | .null, .obj _ => isFalse (by simp)
  | .bool _, .null => isFalse (by simp)
  | .bool a, .bool b =>
      if h : a = b then isTrue (by rw [h]) else isFalse (by simp [h])
  | .bool _, .num _ => isFalse (by simp)
  | .bool _, .str _ => isFalse (by simp)
  | .bool _, .arr _ => isFalse (by simp)
  | .bool _, .obj _ => isFalse (by simp)
  | .num _, .null => isFalse (by simp)
  | .num _, .bool _ => isFalse (by simp)
  | .num a, .num b =>
      if h : a = b then isTrue (by rw [h]) else isFalse (by simp [h])
  | .num _, .str _ => isFalse (by simp)
  | .num _, .arr _ => isFalse (by simp)
  | .num _, .obj _ => isFalse (by simp)
  | .str _, .null => isFalse (by simp)
  | .str _, .bool _ => isFalse (by simp)
  | .str _, .num _ => isFalse (by simp)
  | .str a, .str b =>
      if h : a = b then isTrue (by rw [h]) else isFalse (by simp [h])
  | .str _, .arr _ => isFalse (by simp)
  | .str _, .obj _ => isFalse (by simp)
  | .arr _, .null => isFalse (by simp)
  | .arr _, .bool _ => isFalse (by simp)
  | .arr _, .num _ => isFalse (by simp)
  | .arr _, .str _ => isFalse (by simp)
  | .arr a, .arr b =>
      match Json.decEqList a b with
      | isTrue h => isTrue (by rw [h])
      | isFalse h => isFalse (by simp [h])
  | .arr _, .obj _ => isFalse (by simp)
  | .obj _, .null => isFalse (by simp)
  | .obj _, .bool _ => isFalse (by simp)
  | .obj _, .num _ => isFalse (by simp)
  | .obj _, .str _ => isFalse (by simp)
  | .obj _, .arr _ => isFalse (by simp)
  | .obj a, .obj b =>
      match Json.decEqFields a b with
      | isTrue h => isTrue (by rw [h])
      | isFalse h => isFalse (by simp [h])

/-- Decidable equality of JSON value lists. -/
def Json.decEqList : (a b : List Json) → Decidable (a = b)
  | [], [] => isTrue rfl
  | [], _ :: _ => isFalse (by simp)
  | _ :: _, [] => isFalse (by simp)
  | x :: xs, y :: ys =>
      match Json.decEq x y, Json.decEqList xs ys with
      | isTrue h1, isTrue h2 => isTrue (by rw [h1, h2])
      | isFalse h1, _ => isFalse (by simp [h1])
      | _, isFalse h2 => isFalse (by simp [h2])

/-- Decidable equality of JSON object field lists. -/
def Json.decEqFields : (a b : List (String × Json)) → Decidable (a = b)
  | [], [] => isTrue rfl
  | [], _ :: _ => isFalse (by simp)
  | _ :: _, [] => isFalse (by simp)
  | (k1, v1) :: xs, (k2, v2) :: ys =>
      if hk : k1 = k2 then
        match Json.decEq v1 v2, Json.decEqFields xs ys with
        | isTrue h1, isTrue h2 => isTrue (by rw [hk, h1, h2])
        | isFalse h1, _ => isFalse (by simp [h1])
        | _, isFalse h2 => isFalse (by simp [h2])
      else isFalse (by simp [hk])

end

instance : DecidableEq Json := Json.decEq

/-- JavaScript truthiness of a JSON value (used by `if (message.message)` and
`if (message.identifier)` guards in the source). -/
def jsTruthy : Json → Bool
  | .null => false
  | .bool b => b
  | .num n => n != 0
  | .str s => s ≠ ""
  | .arr _ => true
  | .obj _ => true

/-- Escape of one character inside a JSON string literal, as `JSON.stringify`
does it: 34 is the double quote, 92 the backslash; other characters of the
identifiers in play need no escape. -/
def Json.escapeChar (c : Char) : String :=
  if c.toNat = 34 then "\\\"" else if c.toNat = 92 then "\\\\" else String.singleton c

/-- A JSON string literal: quoted and escaped, as `JSON.stringify` renders it. -/
def Json.quoteString (s : String) : String :=
  "\"" ++ String.join (s.data.map Json.escapeChar) ++ "\""

mutual

/-- Model of `JSON.stringify`: serializes in insertion order of the object
fields (the JavaScript builtin does not sort keys). -/
def Json.stringify : Json → String
  | .null => "null"
  | .bool true => "true"
  | .bool false => "false"
  | .num n => toString n
  | .str s => Json.quoteString s
  | .arr elems => "[" ++ Json.stringifyArray elems ++ "]"
  | .obj fields => "\x7b" ++ Json.stringifyFields fields ++ "\x7d"

/-- Comma-separated serialization of array elements. -/
def Json.stringifyArray : List Json → String
  | [] => ""
  | [x] => Json.stringify x
  | x :: y :: rest => Json.stringify x ++ "," ++ Json.stringifyArray (y :: rest)

/-- Comma-separated serialization of object fields, in insertion order. -/
def Json.stringifyFields : List (String × Json) → String
  | [] => ""
  | [(k, v)] => Json.quoteString k ++ ":" ++ Json.stringify v
  | (k, v) :: p :: rest =>
      Json.quoteString k ++ ":" ++ Json.stringify v ++ "," ++ Json.stringifyFields (p :: rest)

end

/-- Property lookup on a JavaScript object modelled as an ordered field list
(first binding wins, as in an object literal with unique keys). -/
def lookupField (k : String) : List (String × Json) → Option Json
  | [] => none
  | (k2, v) :: rest => if k2 = k then some v else lookupField k rest

/-- Two objects are field-for-field equal when every key of either one is
bound to the same value in both — equality as finite maps, regardless of the
order in which the keys were inserted. -/
def FieldEq (a b : List (String × Json)) : Prop :=
  (∀ p ∈ a, lookupField p.1 a = lookupField p.1 b) ∧
  (∀ p ∈ b, lookupField p.1 a = lookupField p.1 b)

instance (a b : List (String × Json)) : Decidable (FieldEq a b) := by
  unfold FieldEq; infer_instance

/-- Channel argument of `subscriptions.create` / `sendToChannel` /
`simulateIncomingMessage`: either a bare channel name or an object with a
`channel` field and arbitrary parameters (`ChannelNameWithParams`). -/
inductive ChannelNameOrParams where
  | name (channel : String) : ChannelNameOrParams
  | withParams (fields : List (String × Json)) : ChannelNameOrParams
deriving DecidableEq

/-- Canonicalization used by `MockActionCableSubscriptions.create`,
`MockActionCableConsumer.sendToChannel` and `simulateIncomingMessage`:
`typeof channel === "string" ? JSON.stringify(\x7b channel \x7d) : JSON.stringify(channel)`. -/
def canonicalIdentifier : ChannelNameOrParams → String
  | .name channel => Json.stringify (Json.obj [("channel", Json.str channel)])
  | .withParams fields => Json.stringify (Json.obj fields)

/-- Behaviour of one user-registered callback: an identity for dispatch
observation and whether invoking it throws. -/
structure Callback where
  cbId : Nat
  throws : Bool
deriving DecidableEq

/-- The `callbacks` object handed to `subscriptions.create` in the featured
consumer variant: each event has at most one handler. -/
structure SubscriptionCallbacks where
  connected : Option Callback := none
  disconnected : Option Callback := none
  received : Option Callback := none
deriving DecidableEq

/-- One `MockActionCableSubscription` of the featured consumer variant.
`rid` models the JavaScript object identity of the record (used by
`indexOf`); `isSubscribed` is its lifecycle flag. -/
structure MockActionCableSubscription where
  rid : Nat
  identifier : String
  callbacks : SubscriptionCallbacks
  isSubscribed : Bool := false
deriving DecidableEq

/-- Direction tag of a recorded history entry (the `type` field of
`ActionCableMessage`). -/
inductive MessageDirection where
  | incoming : MessageDirection
  | outgoing : MessageDirection
deriving DecidableEq

/-- One entry of the consumer's `messageHistory` array.  The `Date.now()`
timestamp is irrelevant to every verified property and is omitted. -/
structure HistoryEntry where
  msgType : MessageDirection
  data : Json
deriving DecidableEq

/-- State of a `MockActionCableConsumer` (featured variant): `wsOpen` models
`websocket?.readyState === WebSocket.OPEN`, `historyOn` the
`options.messageHistory` flag, `packetLoss` the resolved
`options.networkSimulation?.packetLoss || 0` rate, and `nextRid` models the
allocator of fresh object identities for new subscription records. -/
structure MockActionCableConsumer where
  wsOpen : Bool
  isConnected : Bool
  historyOn : Bool
  messageHistory : List HistoryEntry
  subscriptionsList : List MockActionCableSubscription
  packetLoss : Rat
  nextRid : Nat
deriving DecidableEq

/-- Model of `MockActionCableConsumer.send`: when the socket is open the
serialized envelope goes out on the wire (returned list) and, when history
recording is enabled, one outgoing entry is appended; otherwise nothing
happens. -/
def MockActionCableConsumer.send (c : MockActionCableConsumer) (data : Json) :
    MockActionCableConsumer × List String :=
  if c.wsOpen then
    ({ c with
        messageHistory :=
          if c.historyOn then c.messageHistory ++ [⟨.outgoing, data⟩]
          else c.messageHistory },
     [Json.stringify data])
  else (c, [])

/-- Model of `MockActionCableSubscriptions.findByIdentifier`:
`this.subscriptions.find(sub => sub.identifier === identifier)` — the FIRST
record with a matching identifier, if any. -/
def MockActionCableSubscriptions.findByIdentifier
    (subs : List MockActionCableSubscription) (identifier : String) :
    Option MockActionCableSubscription :=
  subs.find? (fun sub => sub.identifier == identifier)

/-- Model of `MockActionCableSubscriptions.findAll`: every record with a
matching identifier. -/
def MockActionCableSubscriptions.findAll
    (subs : List MockActionCableSubscription) (identifier : String) :
    List MockActionCableSubscription :=
  subs.filter (fun sub => sub.identifier == identifier)

/-- Model of `MockActionCableSubscription.handleMessage`: invokes the
registered `received` callback, if any, with no try/catch around it — a
throwing callback propagates (`Except.error`).  On success it returns the
rids of the records whose `received` callback ran. -/
def MockActionCableSubscription.handleMessage
    (sub : MockActionCableSubscription) (_message : Json) : Except Unit (List Nat) :=
  match sub.callbacks.received with
  | some cb => if cb.throws then .error () else .ok [sub.rid]
  | none => .ok []

/-- An inbound data message as consumed by `handleIncomingMessage`:
`none` models an absent `message` property. -/
structure IncomingMessage where
  identifier : String
  message : Option Json
deriving DecidableEq

/-- The JSON object form of an inbound message (what gets recorded in the
history; `JSON.stringify` drops an undefined `message` property). -/
def IncomingMessage.toJson (m : IncomingMessage) : Json :=
  Json.obj ([("identifier", Json.str m.identifier)] ++
    (match m.message with
     | some j => [("message", j)]
     | none => []))

/-- JavaScript truthiness of a possibly-absent value. -/
def optTruthy : Option Json → Bool
  | some j => jsTruthy j
  | none => false

/-- Model of `MockActionCableConsumer.handleIncomingMessage`: records the
incoming envelope when history is on, then looks up ONE record via
`findByIdentifier` and, when the `message` property is truthy, invokes that
record's `received` callback. -/
def MockActionCableConsumer.handleIncomingMessage
    (c : MockActionCableConsumer) (message : IncomingMessage) :
    MockActionCableConsumer × Except Unit (List Nat) :=
  let c1 :=
    if c.historyOn then
      { c with messageHistory := c.messageHistory ++ [⟨.incoming, message.toJson⟩] }
    else c
  match MockActionCableSubscriptions.findByIdentifier c1.subscriptionsList message.identifier with
  | some sub =>
      if optTruthy message.message then (c1, sub.handleMessage ((message.message).getD Json.null))
      else (c1, .ok [])
  | none => (c1, .ok [])

/-- A parsed wire message as inspected by `handleMessage` (fields `type`,
`identifier`, `message`; `none` models an absent property). -/
structure WireMessage where
  type : Option String
  message : Option Json
  identifier : Option String
deriving DecidableEq

/-- The pong envelope `\x7b type: "pong", message: message.message \x7d`
(`JSON.stringify` drops the `message` key when the ping carried none). -/
def pongEnvelope : Option Json → Json
  | some j => Json.obj [("type", Json.str "pong"), ("message", j)]
  | none => Json.obj [("type", Json.str "pong")]

/-- Model of `MockActionCableConsumer.handleMessage` (the socket `message`
event handler): a ping is answered immediately through `send` with a pong
echoing its payload; otherwise a truthy `identifier` routes the message via
`handleIncomingMessage`.  The surrounding try/catch swallows any exception,
so this entry point never propagates one (dispatch errors are only logged). -/
def MockActionCableConsumer.handleMessage
    (c : MockActionCableConsumer) (message : WireMessage) :
    MockActionCableConsumer × List String :=
  if message.type == some "ping" then
    MockActionCableConsumer.send c (pongEnvelope message.message)
  else
    match message.identifier with
    | some id =>
        if id ≠ "" then
          ((c.handleIncomingMessage ⟨id, message.message⟩).1, [])
        else (c, [])
    | none => (c, [])

/-- Model of `MockActionCableConsumer.simulateIncomingMessage`: canonicalizes
the channel, then (after the configured latency, irrelevant here) draws a
uniform random number and drops the message when the draw is below the
configured packet-loss rate (`Math.random() < packetLoss`); otherwise it is
routed through `handleIncomingMessage`.  The outer `Option` is `none` when
the message was dropped before reaching the registry. -/
def MockActionCableConsumer.simulateIncomingMessage
    (c : MockActionCableConsumer) (channel : ChannelNameOrParams) (data : Json)
    (randomDraw : Rat) :
    MockActionCableConsumer × Option (Except Unit (List Nat)) :=
  let identifier := canonicalIdentifier channel
  let message : IncomingMessage := ⟨identifier, some data⟩
  if randomDraw < c.packetLoss then (c, none)
  else
    let r := c.handleIncomingMessage message
    (r.1, some r.2)

/-- N successive `simulateIncomingMessage` injections, one per random draw;
the second component counts how many of them were routed to the registry
(not dropped by packet-loss simulation). -/
def MockActionCableConsumer.simulateManyIncoming
    (c : MockActionCableConsumer) (channel : ChannelNameOrParams) (data : Json) :
    List Rat → MockActionCableConsumer × Nat
  | [] => (c, 0)
  | r :: rest =>
      let step := c.simulateIncomingMessage channel data r
      let tail := step.1.simulateManyIncoming channel data rest
      (tail.1, (if (step.2).isSome then 1 else 0) + tail.2)

/-- Model of `MockActionCableConsumer.sendToChannel`: canonicalizes the
channel and sends a `message` command envelope. -/
def MockActionCableConsumer.sendToChannel
    (c : MockActionCableConsumer) (channel : ChannelNameOrParams) (data : Json) :
    MockActionCableConsumer × List String :=
  c.send (Json.obj
    [("command", Json.str "message"),
     ("identifier", Json.str (canonicalIdentifier channel)),
     ("data", Json.str (Json.stringify data))])

/-- Model of `MockActionCableSubscriptions.create` (featured variant): always
constructs a fresh record (fresh object identity, `isSubscribed = false`) and
appends it to the internal collection — no deduplication.  The delayed
`subscription.subscribe()` timer is a separate later step and does not affect
the properties below. -/
def MockActionCableSubscriptions.create
    (c : MockActionCableConsumer) (channel : ChannelNameOrParams)
    (callbacks : SubscriptionCallbacks) :
    MockActionCableConsumer × MockActionCableSubscription :=
  let identifier := canonicalIdentifier channel
  let subscription : MockActionCableSubscription :=
    { rid := c.nextRid, identifier := identifier, callbacks := callbacks, isSubscribed := false }
  ({ c with
      subscriptionsList := c.subscriptionsList ++ [subscription],
      nextRid := c.nextRid + 1 },
   subscription)

/-- Model of `MockActionCableSubscription.unsubscribe`: a no-op on an
already-unsubscribed record; otherwise sends the unsubscribe envelope, clears
the flag and invokes the `disconnected` callback (returned as the list of
invoked callback ids). -/
def MockActionCableSubscription.unsubscribe (c : MockActionCableConsumer)
    (sub : MockActionCableSubscription) :
    MockActionCableConsumer × MockActionCableSubscription × List String × List Nat :=
  if !sub.isSubscribed then (c, sub, [], [])
  else
    let sent := c.send (Json.obj
      [("command", Json.str "unsubscribe"), ("identifier", Json.str sub.identifier)])
    let invoked := match sub.callbacks.disconnected with
      | some cb => [cb.cbId]
      | none => []
    (sent.1, { sub with isSubscribed := false }, sent.2, invoked)

/-- Model of `MockActionCableSubscriptions.remove` (featured variant):
`indexOf` finds the record by object identity (`rid`); when present it is
spliced out and then `unsubscribe()` runs on it; otherwise nothing happens.
Returns the new consumer, the wire envelopes sent and the callback ids
invoked. -/
def MockActionCableSubscriptions.remove (c : MockActionCableConsumer) (rid : Nat) :
    MockActionCableConsumer × List String × List Nat :=
  match c.subscriptionsList.find? (fun s => s.rid == rid) with
  | some sub =>
      let c1 := { c with subscriptionsList := c.subscriptionsList.eraseP (fun s => s.rid == rid) }
      let u := MockActionCableSubscription.unsubscribe c1 sub
      (u.1, u.2.2.1, u.2.2.2)
  | none => (c, [], [])

/-- Assignment of one property on a JavaScript object: an existing key keeps
its position and gets the new value, a new key is appended. -/
def assignField (fields : List (String × Json)) (k : String) (v : Json) :
    List (String × Json) :=
  if (fields.map Prod.fst).contains k then
    fields.map (fun p => if p.1 == k then (p.1, v) else p)
  else fields ++ [(k, v)]

/-- Object spread `\x7b ...base, ...extra \x7d` restricted to what `perform`
builds: each field of `extra` is assigned onto `base` in order. -/
def spreadInto (base extra : List (String × Json)) : List (String × Json) :=
  extra.foldl (fun acc p => assignField acc p.1 p.2) base

/-- The `message` command envelope built by `perform`: its `data` is
`JSON.stringify(\x7b action, ...data \x7d)`. -/
def performEnvelope (sub : MockActionCableSubscription) (action : String)
    (data : List (String × Json)) : Json :=
  Json.obj
    [("command", Json.str "message"),
     ("identifier", Json.str sub.identifier),
     ("data", Json.str (Json.stringify
        (Json.obj (spreadInto [("action", Json.str action)] data))))]

/-- Model of `MockActionCableSubscription.perform` (featured variant): throws
`Cannot perform action on unsubscribed channel` unless the record is
subscribed; otherwise sends one `message` envelope. -/
def MockActionCableSubscription.perform (c : MockActionCableConsumer)
    (sub : MockActionCableSubscription) (action : String)
    (data : List (String × Json)) :
    Except String (MockActionCableConsumer × List String) :=
  if !sub.isSubscribed then
    .error "Cannot perform action on unsubscribed channel"
  else
    .ok (c.send (performEnvelope sub action data))

/-- Model of `MockActionCableSubscription.send` (featured variant): the body
performs no subscription-state check and contains no throw statement, so in
the same error monad as `perform` it always succeeds, sending one `message`
envelope. -/
def MockActionCableSubscription.send (c : MockActionCableConsumer)
    (sub : MockActionCableSubscription) (data : Json) :
    Except String (MockActionCableConsumer × List String) :=
  .ok (c.send (Json.obj
    [("command", Json.str "message"),
     ("identifier", Json.str sub.identifier),
     ("data", Json.str (Json.stringify data))]))

instance : DecidableEq (Except Unit (List Nat)) := fun a b =>
  match a, b with
  | .ok x, .ok y => if h : x = y then isTrue (by rw [h]) else isFalse (by simp [h])
  | .error x, .error y => isTrue (by cases x; cases y; rfl)
  | .ok _, .error _ => isFalse (by simp)
  | .error _, .ok _ => isFalse (by simp)

/-- The record rids whose `received` callback actually ran in a dispatch
result (an exception yields an empty run list for the propagating branch). -/
def invokedIds : Except Unit (List Nat) → List Nat
  | .ok l => l
  | .error _ => []

/-- One subscription record of the `ActionCableMock` protocol class: ordered
callback lists per event, `sid` models the object identity. -/
structure ACMockSubscription where
  sid : Nat
  identifier : String
  connectedCallbacks : List Callback
  disconnectedCallbacks : List Callback
  receivedCallbacks : List Callback
deriving DecidableEq

/-- State of an `ActionCableMock` instance; `nextSid` models the allocator of
fresh object identities. -/
structure ActionCableMock where
  connected : Bool
  subscriptionsList : List ACMockSubscription
  sentMessages : List (String × String)
  nextSid : Nat
deriving DecidableEq

/-- Identifier computation of `ActionCableMock`: a string argument is used
as-is (NOT wrapped in a `channel` object), an object is `JSON.stringify`-ed. -/
def ActionCableMock.identifierOf : ChannelNameOrParams → String
  | .name s => s
  | .withParams fields => Json.stringify (Json.obj fields)

/-- Model of `ActionCableMock.subscribe`: when a record with the same
identifier already exists it is returned unchanged (deduplication); otherwise
a fresh record with empty callback lists is appended. -/
def ActionCableMock.subscribe (m : ActionCableMock)
    (channelIdentifier : ChannelNameOrParams) :
    ActionCableMock × ACMockSubscription :=
  let identifier := ActionCableMock.identifierOf channelIdentifier
  match m.subscriptionsList.find? (fun sub => sub.identifier == identifier) with
  | some existingSub => (m, existingSub)
  | none =>
      let subscription : ACMockSubscription :=
        { sid := m.nextSid, identifier := identifier,
          connectedCallbacks := [], disconnectedCallbacks := [], receivedCallbacks := [] }
      ({ m with
          subscriptionsList := m.subscriptionsList ++ [subscription],
          nextSid := m.nextSid + 1 },
       subscription)

/-- A JavaScript return value that is either a boolean or a number — needed
because the spec says `simulateReceive` returns a count while the source
returns `handledCount > 0`. -/
inductive JsVal where
  | bool (b : Bool) : JsVal
  | num (n : Int) : JsVal
deriving DecidableEq

/-- Observation of one dispatch: callback ids invoked, and those that
completed without throwing (`handledCount` increments only for the latter). -/
structure DispatchLog where
  attempted : List Nat
  succeeded : List Nat
deriving DecidableEq

/-- The inner `forEach` of `simulateReceive` over one record's `received`
callbacks: each is invoked inside try/catch, so a throwing callback is logged
and the loop continues with the next one. -/
def invokeReceivedCallbacks : List Callback → DispatchLog
  | [] => ⟨[], []⟩
  | cb :: rest =>
      let tail := invokeReceivedCallbacks rest
      ⟨cb.cbId :: tail.attempted,
       if cb.throws then tail.succeeded else cb.cbId :: tail.succeeded⟩

/-- The outer `forEach` of `simulateReceive` over all matching records. -/
def dispatchToSubscriptions : List ACMockSubscription → DispatchLog
  | [] => ⟨[], []⟩
  | sub :: rest =>
      let here := invokeReceivedCallbacks sub.receivedCallbacks
      let tail := dispatchToSubscriptions rest
      ⟨here.attempted ++ tail.attempted, here.succeeded ++ tail.succeeded⟩

/-- Model of `ActionCableMock.simulateReceive`: filters ALL records matching
the identifier; with no match it emits the unhandled-message event and
returns `false`; otherwise it invokes every matching record's `received`
callbacks (try/catch per callback) and returns the boolean
`handledCount > 0`, where `handledCount` counts callback invocations that
completed without throwing. -/
def ActionCableMock.simulateReceive (m : ActionCableMock)
    (channelIdentifier : ChannelNameOrParams) (_data : Json) :
    DispatchLog × JsVal :=
  let identifier := ActionCableMock.identifierOf channelIdentifier
  let subscriptions := m.subscriptionsList.filter (fun sub => sub.identifier == identifier)
  if subscriptions.isEmpty then
    (⟨[], []⟩, JsVal.bool false)
  else
    let log := dispatchToSubscriptions subscriptions
    (log, JsVal.bool (log.succeeded.length > 0))

/-- Count, independent of the dispatch code, of the received callbacks of
matching records that complete without throwing — what `handledCount` ends up
being. -/
def successfulReceiveCount (m : ActionCableMock) (identifier : String) : Nat :=
  ((m.subscriptionsList.filter (fun sub => sub.identifier == identifier)).map
    (fun sub => (sub.receivedCallbacks.filter (fun cb => !cb.throws)).length)).sum

/-- A heap of JavaScript arrays, to state aliasing properties: a reference is
an index into the store. -/
structure HistoryStore where
  arrays : List (List HistoryEntry)
deriving DecidableEq

/-- Dereference an array (out-of-range reads give the empty array, unused in
the verified properties). -/
def HistoryStore.read (σ : HistoryStore) (r : Nat) : List HistoryEntry :=
  (σ.arrays.get? r).getD []

/-- In-place mutation of the array behind a reference (push, splice, …). -/
def HistoryStore.write (σ : HistoryStore) (r : Nat) (a : List HistoryEntry) :
    HistoryStore :=
  ⟨σ.arrays.set r a⟩

/-- Allocation of a fresh array object. -/
def HistoryStore.alloc (σ : HistoryStore) (a : List HistoryEntry) :
    HistoryStore × Nat :=
  (⟨σ.arrays ++ [a]⟩, σ.arrays.length)

/-- Model of `MockActionCableConsumer.getMessageHistory`:
`return [...this.messageHistory]` — allocates a FRESH array holding the
entries of the internal history array and returns a reference to it. -/
def getMessageHistory (σ : HistoryStore) (histRef : Nat) : HistoryStore × Nat :=
  σ.alloc (σ.read histRef)

/-- A fresh consumer with no subscriptions, used to instantiate the C7
theorem. -/
def c7init : MockActionCableConsumer :=
  { wsOpen := true, isConnected := true, historyOn := false, messageHistory := []
    subscriptionsList := [], packetLoss := 0, nextRid := 0 }

/-- A consumer configured with packet-loss rate 1.0. -/
def c8rate1 : MockActionCableConsumer :=
  { wsOpen := true, isConnected := true, historyOn := false, messageHistory := []
    subscriptionsList := [], packetLoss := 1, nextRid := 0 }

/-- A consumer configured with packet-loss rate 0.0. -/
def c8rate0 : MockActionCableConsumer :=
  { wsOpen := true, isConnected := true, historyOn := false, messageHistory := []
    subscriptionsList := [], packetLoss := 0, nextRid := 0 }

/-- A consumer holding one confirmed record, used to instantiate the C9
theorem. -/
def c9w : MockActionCableConsumer :=
  { wsOpen := true, isConnected := true, historyOn := false, messageHistory := []
    subscriptionsList :=
      [{ rid := 0, identifier := canonicalIdentifier (.name "NotifChannel")
         callbacks := {}, isSubscribed := true }]
    packetLoss := 0, nextRid := 1 }

/-- A store holding one history array with one entry, used to instantiate the
C10 theorem. -/
def c10store : HistoryStore :=
  ⟨[[⟨.incoming, Json.str "x"⟩]]⟩

theorem lookupField_cons_ne (k k2 : String) (v : Json) (l : List (String × Json))
    (h : k2 ≠ k) : lookupField k ((k2, v) :: l) = lookupField k l := by
  simp [lookupField, h]

/-- Two objects with the same key order, no duplicate keys, and equal
field-for-field bindings are the same ordered field list. -/
theorem fields_eq_of_fieldEq (a b : List (String × Json))
    (hnd : (a.map Prod.fst).Nodup) (hmap : a.map Prod.fst = b.map Prod.fst)
    (heq : FieldEq a b) : a = b := by
  induction a generalizing b with
  | nil =>
      cases b with
      | nil => rfl
      | cons q t2 => simp at hmap
  | cons p t ih =>
      obtain ⟨k, v⟩ := p
      cases b with
      | nil => simp at hmap
      | cons q t2 =>
          obtain ⟨k2, v2⟩ := q
          simp only [List.map_cons, List.cons.injEq] at hmap
          obtain ⟨hk, hmapt⟩ := hmap
          subst hk
          have hv : v = v2 := by
            have h1 := heq.1 (k, v) (List.mem_cons_self _ _)
            simpa [lookupField] using h1
          subst hv
          have hndt : (t.map Prod.fst).Nodup := (List.nodup_cons.mp hnd).2
          have hknot : k ∉ t.map Prod.fst := (List.nodup_cons.mp hnd).1
          have hknot2 : k ∉ t2.map Prod.fst := hmapt ▸ hknot
          have heqt : FieldEq t t2 := by
            constructor
            · intro p hp
              have hne : k ≠ p.1 := by
                intro hcontra
                exact hknot (hcontra ▸ List.mem_map_of_mem Prod.fst hp)
              have h2 := heq.1 p (List.mem_cons_of_mem _ hp)
              rwa [lookupField_cons_ne _ _ _ _ hne, lookupField_cons_ne _ _ _ _ hne] at h2
            · intro p hp
              have hne : k ≠ p.1 := by
                intro hcontra
                exact hknot2 (hcontra ▸ List.mem_map_of_mem Prod.fst hp)
              have h2 := heq.2 p (List.mem_cons_of_mem _ hp)
              rwa [lookupField_cons_ne _ _ _ _ hne, lookupField_cons_ne _ _ _ _ hne] at h2
          rw [ih t2 hndt hmapt heqt]

/-- C2 counterexample: the two ChannelIdentifier objects
`\x7b channel: "ChatChannel", room: 1 \x7d` and
`\x7b room: 1, channel: "ChatChannel" \x7d` are field-for-field equal, yet
canonicalization (plain `JSON.stringify`, which serializes in key insertion
order) produces two different strings — so the claim that field-for-field
equal identifiers always canonicalize to the same string is false. -/
theorem C2_canonicalize_counterexample :
    FieldEq [("channel", Json.str "ChatChannel"), ("room", Json.num 1)]
            [("room", Json.num 1), ("channel", Json.str "ChatChannel")] ∧
    canonicalIdentifier
        (.withParams [("channel", Json.str "ChatChannel"), ("room", Json.num 1)]) ≠
    canonicalIdentifier
        (.withParams [("room", Json.num 1), ("channel", Json.str "ChatChannel")]) := by
  constructor
  · decide
  · decide

/-- C2 (amended): canonicalization is insertion-order `JSON.stringify`, so two
field-for-field equal ChannelIdentifier objects canonicalize to the same
string when they also list their keys in the same order (and keys are not
duplicated); with a different key insertion order the canonical strings can
differ. -/
theorem C2_canonicalize_same_key_order (a b : List (String × Json))
    (hnd : (a.map Prod.fst).Nodup) (hmap : a.map Prod.fst = b.map Prod.fst)
    (heq : FieldEq a b) :
    canonicalIdentifier (.withParams a) = canonicalIdentifier (.withParams b) := by
  rw [fields_eq_of_fieldEq a b hnd hmap heq]

/-- C2 witness: the amended theorem applied at a concrete identifier. -/
theorem C2_canonicalize_witness :
    canonicalIdentifier (.withParams [("channel", Json.str "ChatChannel"), ("room", Json.num 1)]) =
    canonicalIdentifier (.withParams [("channel", Json.str "ChatChannel"), ("room", Json.num 1)]) :=
  C2_canonicalize_same_key_order _ _ (by decide) (by decide) (by decide)

theorem handleIncomingMessage_snd (c : MockActionCableConsumer) (msg : IncomingMessage) :
    (c.handleIncomingMessage msg).2 =
      match MockActionCableSubscriptions.findByIdentifier c.subscriptionsList msg.identifier with
      | some sub =>
          if optTruthy msg.message then sub.handleMessage ((msg.message).getD Json.null)
          else .ok []
      | none => .ok [] := by
  unfold MockActionCableConsumer.handleIncomingMessage
  cases hh : c.historyOn <;> simp [hh] <;>
    cases hfind : MockActionCableSubscriptions.findByIdentifier c.subscriptionsList
        msg.identifier <;>
      simp [hfind] <;> split <;> rfl

theorem handleIncomingMessage_fst (c : MockActionCableConsumer) (msg : IncomingMessage) :
    (c.handleIncomingMessage msg).1 =
      (if c.historyOn then
        { c with messageHistory := c.messageHistory ++ [⟨.incoming, msg.toJson⟩] }
       else c) := by
  unfold MockActionCableConsumer.handleIncomingMessage
  cases hh : c.historyOn <;> simp [hh] <;>
    cases hfind : MockActionCableSubscriptions.findByIdentifier c.subscriptionsList
        msg.identifier <;>
      simp [hfind] <;> split <;> rfl

theorem handleIncomingMessage_packetLoss (c : MockActionCableConsumer)
    (msg : IncomingMessage) :
    (c.handleIncomingMessage msg).1.packetLoss = c.packetLoss := by
  rw [handleIncomingMessage_fst]
  by_cases hh : c.historyOn <;> simp [hh]

/-- C1 counterexample: two Confirmed records share the canonical identifier of
`ChatChannel`; injecting one incoming message for that identifier invokes only
the first record's received callback (rid 0) and not the second's (rid 1), so
the claim that routing dispatches to ALL matching records is false. -/
theorem C1_first_match_only_counterexample :
    (MockActionCableConsumer.handleIncomingMessage
      { wsOpen := true, isConnected := true, historyOn := false, messageHistory := []
        subscriptionsList :=
          [{ rid := 0, identifier := canonicalIdentifier (.name "ChatChannel")
             callbacks := { received := some ⟨10, false⟩ }, isSubscribed := true },
           { rid := 1, identifier := canonicalIdentifier (.name "ChatChannel")
             callbacks := { received := some ⟨11, false⟩ }, isSubscribed := true }]
        packetLoss := 0, nextRid := 2 }
      ⟨canonicalIdentifier (.name "ChatChannel"), some (Json.str "hi")⟩).2 =
      Except.ok [0] ∧
    1 ∉ invokedIds
      (MockActionCableConsumer.handleIncomingMessage
        { wsOpen := true, isConnected := true, historyOn := false, messageHistory := []
          subscriptionsList :=
            [{ rid := 0, identifier := canonicalIdentifier (.name "ChatChannel")
               callbacks := { received := some ⟨10, false⟩ }, isSubscribed := true },
             { rid := 1, identifier := canonicalIdentifier (.name "ChatChannel")
               callbacks := { received := some ⟨11, false⟩ }, isSubscribed := true }]
          packetLoss := 0, nextRid := 2 }
        ⟨canonicalIdentifier (.name "ChatChannel"), some (Json.str "hi")⟩).2 := by
  constructor
  · rfl
  · decide

/-- C1 (amended): inbound routing in the consumer dispatches to at most ONE
record — whenever some record's received callback runs for an inbound
message, that record is exactly the FIRST one (in creation order) whose
canonical identifier equals the message's identifier, because
`handleIncomingMessage` resolves the target with `findByIdentifier`
(`Array.find`); sibling records sharing the identifier are never invoked. -/
theorem C1_dispatch_only_first_match (c : MockActionCableConsumer)
    (msg : IncomingMessage) (r : Nat)
    (hr : r ∈ invokedIds (c.handleIncomingMessage msg).2) :
    (MockActionCableSubscriptions.findByIdentifier c.subscriptionsList
        msg.identifier).map MockActionCableSubscription.rid = some r := by
  rw [handleIncomingMessage_snd] at hr
  cases hfind : MockActionCableSubscriptions.findByIdentifier c.subscriptionsList
      msg.identifier with
  | none => rw [hfind] at hr; simp [invokedIds] at hr
  | some sub =>
      rw [hfind] at hr
      by_cases ht : optTruthy msg.message
      · simp only [ht, if_true] at hr
        unfold MockActionCableSubscription.handleMessage at hr
        cases hcb : sub.callbacks.received with
        | none => rw [hcb] at hr; simp [invokedIds] at hr
        | some cb =>
            rw [hcb] at hr
            by_cases hthrow : cb.throws
            · simp [hthrow, invokedIds] at hr
            · simp only [hthrow, if_false, Bool.false_eq_true, invokedIds] at hr
              simp [invokedIds] at hr
              simp [hr]
      · simp [ht, invokedIds] at hr

/-- C1 witness: the amended theorem applied to the concrete two-record
consumer: the invoked rid 0 is the first matching record's rid. -/
theorem C1_dispatch_only_first_match_witness :
    (MockActionCableSubscriptions.findByIdentifier
      [{ rid := 0, identifier := canonicalIdentifier (.name "ChatChannel")
         callbacks := { received := some ⟨10, false⟩ }, isSubscribed := true },
       { rid := 1, identifier := canonicalIdentifier (.name "ChatChannel")
         callbacks := { received := some ⟨11, false⟩ }, isSubscribed := true }]
      (canonicalIdentifier (.name "ChatChannel"))).map
        MockActionCableSubscription.rid = some 0 :=
  C1_dispatch_only_first_match
    { wsOpen := true, isConnected := true, historyOn := false, messageHistory := []
      subscriptionsList :=
        [{ rid := 0, identifier := canonicalIdentifier (.name "ChatChannel")
           callbacks := { received := some ⟨10, false⟩ }, isSubscribed := true },
         { rid := 1, identifier := canonicalIdentifier (.name "ChatChannel")
           callbacks := { received := some ⟨11, false⟩ }, isSubscribed := true }]
      packetLoss := 0, nextRid := 2 }
    ⟨canonicalIdentifier (.name "ChatChannel"), some (Json.str "hi")⟩ 0 (by decide)

theorem invokeReceivedCallbacks_attempted (cbs : List Callback) :
    (invokeReceivedCallbacks cbs).attempted = cbs.map Callback.cbId := by
  induction cbs with
  | nil => rfl
  | cons cb rest ih => simp [invokeReceivedCallbacks, ih]

theorem invokeReceivedCallbacks_succeeded (cbs : List Callback) :
    (invokeReceivedCallbacks cbs).succeeded.length =
      (cbs.filter (fun cb => !cb.throws)).length := by
  induction cbs with
  | nil => rfl
  | cons cb rest ih =>
      by_cases h : cb.throws <;>
        simp [invokeReceivedCallbacks, List.filter_cons, h, ih]

theorem dispatchToSubscriptions_attempted (subs : List ACMockSubscription) :
    (dispatchToSubscriptions subs).attempted =
      (subs.map (fun sub => sub.receivedCallbacks.map Callback.cbId)).flatten := by
  induction subs with
  | nil => rfl
  | cons s rest ih =>
      simp [dispatchToSubscriptions, invokeReceivedCallbacks_attempted, ih]

theorem dispatchToSubscriptions_succeeded (subs : List ACMockSubscription) :
    (dispatchToSubscriptions subs).succeeded.length =
      (subs.map (fun sub => (sub.receivedCallbacks.filter (fun cb => !cb.throws)).length)).sum := by
  induction subs with
  | nil => rfl
  | cons s rest ih =>
      simp [dispatchToSubscriptions, invokeReceivedCallbacks_succeeded, ih]

/-- C3 counterexample: a mock with exactly one matching record whose single
received callback succeeds.  One record received the message, so the claimed
return value is the number 1; the code returns the boolean `true`
(`handledCount > 0`) instead — `simulateReceive` does not return a count. -/
theorem C3_returns_boolean_counterexample :
    (ActionCableMock.simulateReceive
      { connected := true
        subscriptionsList :=
          [{ sid := 0, identifier := "ChatChannel", connectedCallbacks := []
             disconnectedCallbacks := [], receivedCallbacks := [⟨20, false⟩] }]
        sentMessages := [], nextSid := 1 }
      (.name "ChatChannel") (Json.str "hi")).2 = JsVal.bool true ∧
    (ActionCableMock.simulateReceive
      { connected := true
        subscriptionsList :=
          [{ sid := 0, identifier := "ChatChannel", connectedCallbacks := []
             disconnectedCallbacks := [], receivedCallbacks := [⟨20, false⟩] }]
        sentMessages := [], nextSid := 1 }
      (.name "ChatChannel") (Json.str "hi")).2 ≠ JsVal.num 1 := by
  constructor
  · rfl
  · decide

/-- C3 (amended): `simulateReceive` returns a BOOLEAN, true exactly when at
least one received callback of a matching record completed without throwing
(`handledCount` counts successful callback invocations, not records), and
false otherwise — including when no record matches. -/
theorem C3_simulateReceive_returns_handled_flag (m : ActionCableMock)
    (cid : ChannelNameOrParams) (data : Json) :
    (m.simulateReceive cid data).2 =
      JsVal.bool
        (decide (0 < successfulReceiveCount m (ActionCableMock.identifierOf cid))) := by
  unfold ActionCableMock.simulateReceive successfulReceiveCount
  by_cases he :
      (m.subscriptionsList.filter
        (fun sub => sub.identifier == ActionCableMock.identifierOf cid)).isEmpty
  · rw [List.isEmpty_iff] at he
    simp [he]
  · simp [he, dispatchToSubscriptions_succeeded]

/-- C4 counterexample: a Confirmed record whose received callback throws; the
primary injection entry point `simulateIncomingMessage` propagates that
exception to its caller (`Except.error`), so the claim that no routing entry
point propagates a callback's exception is false. -/
theorem C4_exception_propagates_counterexample :
    (MockActionCableConsumer.simulateIncomingMessage
      { wsOpen := true, isConnected := true, historyOn := false, messageHistory := []
        subscriptionsList :=
          [{ rid := 0, identifier := canonicalIdentifier (.name "ChatChannel")
             callbacks := { received := some ⟨30, true⟩ }, isSubscribed := true }]
        packetLoss := 0, nextRid := 1 }
      (.name "ChatChannel") (Json.str "boom") 0).2 = some (Except.error ()) := rfl

/-- C4 (amended): inside `ActionCableMock.simulateReceive` a throwing callback
is caught per-callback and dispatch continues: every received callback of
every matching record is invoked no matter which callbacks throw, and the
operation itself always returns normally; but
`MockActionCableSubscription.handleMessage` (the consumer's dispatch target,
reached through `simulateIncomingMessage`) has no such guard, so there a
throwing received callback propagates to the caller. -/
theorem C4_simulateReceive_attempts_every_callback (m : ActionCableMock)
    (cid : ChannelNameOrParams) (data : Json) :
    (m.simulateReceive cid data).1.attempted =
      ((m.subscriptionsList.filter
          (fun sub => sub.identifier == ActionCableMock.identifierOf cid)).map
        (fun sub => sub.receivedCallbacks.map Callback.cbId)).flatten := by
  unfold ActionCableMock.simulateReceive
  by_cases he :
      (m.subscriptionsList.filter
        (fun sub => sub.identifier == ActionCableMock.identifierOf cid)).isEmpty
  · rw [List.isEmpty_iff] at he
    simp [he]
  · simp [he, dispatchToSubscriptions_attempted]

/-- C5 counterexample: a record that is NOT subscribed (not Confirmed), on
which `send(data)` completes without any caller-visible error — its body
performs no state check — so the claim that `send` on a non-confirmed record
raises an error is false (`perform` does raise, `send` does not). -/
theorem C5_send_no_error_counterexample :
    (MockActionCableSubscription.send
      { wsOpen := true, isConnected := true, historyOn := true, messageHistory := []
        subscriptionsList := [], packetLoss := 0, nextRid := 0 }
      { rid := 0, identifier := canonicalIdentifier (.name "ChatChannel")
        callbacks := {}, isSubscribed := false }
      (Json.str "hi")).isOk = true ∧
    ({ rid := 0, identifier := canonicalIdentifier (.name "ChatChannel")
       callbacks := {}, isSubscribed := false } :
        MockActionCableSubscription).isSubscribed = false := by
  constructor
  · rfl
  · rfl

/-- C5 (amended): `perform` on a record that is not Confirmed raises the
invalid-operation error `Cannot perform action on unsubscribed channel`;
`perform` on a Confirmed record succeeds and — when the socket is open and
history recording is enabled — appends exactly one outgoing entry to the
message history; `send`, by contrast, performs no subscription-state check
and never raises. -/
theorem C5_perform_checks_state (c : MockActionCableConsumer)
    (sub : MockActionCableSubscription) (action : String)
    (data : List (String × Json)) :
    (sub.isSubscribed = false →
      MockActionCableSubscription.perform c sub action data =
        Except.error "Cannot perform action on unsubscribed channel") ∧
    (sub.isSubscribed = true → c.wsOpen = true → c.historyOn = true →
      MockActionCableSubscription.perform c sub action data =
        Except.ok
          ({ c with messageHistory :=
              c.messageHistory ++ [⟨.outgoing, performEnvelope sub action data⟩] },
           [Json.stringify (performEnvelope sub action data)])) := by
  constructor
  · intro hns
    simp [MockActionCableSubscription.perform, hns]
  · intro hs hw hh
    simp [MockActionCableSubscription.perform, MockActionCableConsumer.send, hs, hw, hh]

/-- C5 witness: the amended theorem applied to a concrete Confirmed record on
an open, history-recording consumer. -/
theorem C5_perform_checks_state_witness :
    MockActionCableSubscription.perform
      { wsOpen := true, isConnected := true, historyOn := true, messageHistory := []
        subscriptionsList := [], packetLoss := 0, nextRid := 0 }
      { rid := 0, identifier := canonicalIdentifier (.name "ChatChannel")
        callbacks := {}, isSubscribed := true }
      "speak" [("message", Json.str "hi")] =
      Except.ok
        ({ wsOpen := true, isConnected := true, historyOn := true
           messageHistory :=
             [⟨.outgoing, performEnvelope
                { rid := 0, identifier := canonicalIdentifier (.name "ChatChannel")
                  callbacks := {}, isSubscribed := true }
                "speak" [("message", Json.str "hi")]⟩]
           subscriptionsList := [], packetLoss := 0, nextRid := 0 },
         [Json.stringify (performEnvelope
            { rid := 0, identifier := canonicalIdentifier (.name "ChatChannel")
              callbacks := {}, isSubscribed := true }
            "speak" [("message", Json.str "hi")])]) :=
  (C5_perform_checks_state
    { wsOpen := true, isConnected := true, historyOn := true, messageHistory := []
      subscriptionsList := [], packetLoss := 0, nextRid := 0 }
    { rid := 0, identifier := canonicalIdentifier (.name "ChatChannel")
      callbacks := {}, isSubscribed := true }
    "speak" [("message", Json.str "hi")]).2 rfl rfl rfl

/-- C6 counterexample: a consumer with history recording enabled and the
socket open; handling one inbound ping changes the recorded message history
(the pong reply is sent through the general `send`, which records an outgoing
entry), so the claim that ping handling leaves the assertable history
unchanged even when recording is enabled is false. -/
theorem C6_pong_recorded_counterexample :
    (MockActionCableConsumer.handleMessage
      { wsOpen := true, isConnected := true, historyOn := true, messageHistory := []
        subscriptionsList := [], packetLoss := 0, nextRid := 0 }
      ⟨some "ping", some (Json.str "stamp"), none⟩).1.messageHistory ≠
      ({ wsOpen := true, isConnected := true, historyOn := true, messageHistory := []
         subscriptionsList := [], packetLoss := 0, nextRid := 0 } :
          MockActionCableConsumer).messageHistory := by
  decide

/-- C6 (amended): an inbound ping is answered immediately — when the socket
is open — with exactly one pong envelope echoing the ping's payload, the ping
itself is never recorded, and the subscriptions are untouched; however the
pong reply goes out through the general `send`, so whenever history recording
is enabled (and the socket is open) it IS recorded as one outgoing history
entry. -/
theorem C6_ping_answered_with_pong (c : MockActionCableConsumer)
    (p : Option Json) (ident : Option String) :
    (c.handleMessage ⟨some "ping", p, ident⟩).2 =
      (if c.wsOpen then [Json.stringify (pongEnvelope p)] else []) ∧
    (c.handleMessage ⟨some "ping", p, ident⟩).1.messageHistory =
      c.messageHistory ++
        (if c.wsOpen && c.historyOn then [⟨.outgoing, pongEnvelope p⟩] else []) ∧
    (c.handleMessage ⟨some "ping", p, ident⟩).1.subscriptionsList =
      c.subscriptionsList := by
  unfold MockActionCableConsumer.handleMessage
  cases hw : c.wsOpen <;> cases hh : c.historyOn <;>
    simp [MockActionCableConsumer.send, hw, hh]

theorem unsubscribe_subscriptionsList (c : MockActionCableConsumer)
    (sub : MockActionCableSubscription) :
    (MockActionCableSubscription.unsubscribe c sub).1.subscriptionsList =
      c.subscriptionsList := by
  unfold MockActionCableSubscription.unsubscribe MockActionCableConsumer.send
  cases hs : sub.isSubscribed <;> cases hw : c.wsOpen <;> simp [hs, hw]

theorem remove_subscriptionsList (c : MockActionCableConsumer) (rid : Nat) :
    (MockActionCableSubscriptions.remove c rid).1.subscriptionsList =
      c.subscriptionsList.eraseP (fun s => s.rid == rid) := by
  unfold MockActionCableSubscriptions.remove
  cases hfind : c.subscriptionsList.find? (fun s => s.rid == rid) with
  | none =>
      have hall := List.find?_eq_none.mp hfind
      simp [List.eraseP_of_forall_not hall]
  | some sub => simp [unsubscribe_subscriptionsList]

/-- C7 counterexample: two `subscribe` calls with the same canonical
identifier on `ActionCableMock` yield ONE record, not two — the second call
finds the existing record and returns it (deduplication), so the claim that
the subscribe operation never deduplicates is false. -/
theorem C7_subscribe_dedupes_counterexample :
    (ActionCableMock.subscribe
        (ActionCableMock.subscribe
          { connected := true, subscriptionsList := [], sentMessages := [], nextSid := 0 }
          (.name "NotifChannel")).1
        (.name "NotifChannel")).1.subscriptionsList.length = 1 ∧
    (ActionCableMock.subscribe
        (ActionCableMock.subscribe
          { connected := true, subscriptionsList := [], sentMessages := [], nextSid := 0 }
          (.name "NotifChannel")).1
        (.name "NotifChannel")).2 =
      (ActionCableMock.subscribe
        { connected := true, subscriptionsList := [], sentMessages := [], nextSid := 0 }
        (.name "NotifChannel")).2 := by
  constructor
  · rfl
  · rfl

/-- C7 (amended): the registry's `create` (featured consumer variant) always
creates and appends a new independent record and never deduplicates — two
creates with one canonical identifier yield two distinct records appended in
order, and removing the first leaves the second in the collection with its
state untouched; `ActionCableMock.subscribe`, by contrast, deduplicates by
identifier and returns the existing record for a repeated subscribe. -/
theorem C7_create_never_dedupes (c : MockActionCableConsumer)
    (channel : ChannelNameOrParams) (cb1 cb2 : SubscriptionCallbacks)
    (hfresh : ∀ s ∈ c.subscriptionsList, s.rid < c.nextRid) :
    (MockActionCableSubscriptions.create c channel cb1).2.rid ≠
      (MockActionCableSubscriptions.create
        (MockActionCableSubscriptions.create c channel cb1).1 channel cb2).2.rid ∧
    (MockActionCableSubscriptions.create c channel cb1).2.identifier =
      (MockActionCableSubscriptions.create
        (MockActionCableSubscriptions.create c channel cb1).1 channel cb2).2.identifier ∧
    (MockActionCableSubscriptions.create
        (MockActionCableSubscriptions.create c channel cb1).1 channel cb2).1.subscriptionsList
      = c.subscriptionsList ++
        [(MockActionCableSubscriptions.create c channel cb1).2,
         (MockActionCableSubscriptions.create
           (MockActionCableSubscriptions.create c channel cb1).1 channel cb2).2] ∧
    (MockActionCableSubscriptions.remove
        (MockActionCableSubscriptions.create
          (MockActionCableSubscriptions.create c channel cb1).1 channel cb2).1
        (MockActionCableSubscriptions.create c channel cb1).2.rid).1.subscriptionsList
      = c.subscriptionsList ++
        [(MockActionCableSubscriptions.create
           (MockActionCableSubscriptions.create c channel cb1).1 channel cb2).2] := by
  have hpred : ∀ s ∈ c.subscriptionsList, ¬((fun s => s.rid == c.nextRid) s = true) := by
    intro s hs
    simp [Nat.ne_of_lt (hfresh s hs)]
  refine ⟨?_, rfl, ?_, ?_⟩
  · simp only [MockActionCableSubscriptions.create]
    omega
  · simp [MockActionCableSubscriptions.create]
  · rw [remove_subscriptionsList]
    simp only [MockActionCableSubscriptions.create]
    rw [List.append_assoc]
    rw [List.eraseP_append_right _ hpred]
    simp

/-- C7 witness: the amended theorem applied to a fresh consumer with no
subscriptions. -/
theorem C7_create_never_dedupes_witness :
    (MockActionCableSubscriptions.create c7init (.name "NotifChannel") {}).2.rid ≠
      (MockActionCableSubscriptions.create
        (MockActionCableSubscriptions.create c7init (.name "NotifChannel") {}).1
        (.name "NotifChannel") {}).2.rid ∧
    (MockActionCableSubscriptions.create c7init (.name "NotifChannel") {}).2.identifier =
      (MockActionCableSubscriptions.create
        (MockActionCableSubscriptions.create c7init (.name "NotifChannel") {}).1
        (.name "NotifChannel") {}).2.identifier ∧
    (MockActionCableSubscriptions.create
        (MockActionCableSubscriptions.create c7init (.name "NotifChannel") {}).1
        (.name "NotifChannel") {}).1.subscriptionsList
      = c7init.subscriptionsList ++
        [(MockActionCableSubscriptions.create c7init (.name "NotifChannel") {}).2,
         (MockActionCableSubscriptions.create
           (MockActionCableSubscriptions.create c7init (.name "NotifChannel") {}).1
           (.name "NotifChannel") {}).2] ∧
    (MockActionCableSubscriptions.remove
        (MockActionCableSubscriptions.create
          (MockActionCableSubscriptions.create c7init (.name "NotifChannel") {}).1
          (.name "NotifChannel") {}).1
        (MockActionCableSubscriptions.create c7init (.name "NotifChannel") {}).2.rid).1.subscriptionsList
      = c7init.subscriptionsList ++
        [(MockActionCableSubscriptions.create
           (MockActionCableSubscriptions.create c7init (.name "NotifChannel") {}).1
           (.name "NotifChannel") {}).2] :=
  C7_create_never_dedupes c7init (.name "NotifChannel") {} {} (by simp [c7init])

/-- C8: with a packet-loss rate of 1.0 every injected incoming message is
dropped before reaching the registry (zero routed, for every value of the
uniform draw in [0,1)); with a rate of 0.0 every injected message is routed
(all N reach the registry). -/
theorem C8_packet_loss_extremes (c : MockActionCableConsumer)
    (channel : ChannelNameOrParams) (data : Json) (draws : List Rat)
    (hdraws : ∀ r ∈ draws, 0 ≤ r ∧ r < 1) :
    (c.packetLoss = 1 → (c.simulateManyIncoming channel data draws).2 = 0) ∧
    (c.packetLoss = 0 → (c.simulateManyIncoming channel data draws).2 = draws.length) := by
  induction draws generalizing c with
  | nil => simp [MockActionCableConsumer.simulateManyIncoming]
  | cons r rest ih =>
      have hr := hdraws r (List.mem_cons_self _ _)
      have hrest : ∀ x ∈ rest, 0 ≤ x ∧ x < 1 := fun x hx =>
        hdraws x (List.mem_cons_of_mem _ hx)
      constructor
      · intro hrate
        have hdrop : r < c.packetLoss := by rw [hrate]; exact hr.2
        simp only [MockActionCableConsumer.simulateManyIncoming,
          MockActionCableConsumer.simulateIncomingMessage, hdrop, if_true, if_pos]
        simp [(ih c hrest).1 hrate]
      · intro hrate
        have hnodrop : ¬(r < c.packetLoss) := by rw [hrate]; exact not_lt.mpr hr.1
        simp only [MockActionCableConsumer.simulateManyIncoming,
          MockActionCableConsumer.simulateIncomingMessage, hnodrop, if_false, if_neg,
          not_false_iff]
        have hpl : (c.handleIncomingMessage
            ⟨canonicalIdentifier channel, some data⟩).1.packetLoss = 0 := by
          rw [handleIncomingMessage_packetLoss]; exact hrate
        simp [(ih _ hrest).2 hpl]
        omega

/-- C8 witness: the theorem applied to concrete consumers with rates 1.0 and
0.0 and the concrete draw 0. -/
theorem C8_packet_loss_extremes_witness :
    (c8rate1.simulateManyIncoming (.name "ChatChannel") (Json.str "hi") [0]).2 = 0 ∧
    (c8rate0.simulateManyIncoming (.name "ChatChannel") (Json.str "hi") [0]).2 = 1 :=
  ⟨(C8_packet_loss_extremes c8rate1 (.name "ChatChannel") (Json.str "hi") [0]
      (by intro r hr; simp only [List.mem_singleton] at hr; subst hr;
          exact ⟨le_refl 0, zero_lt_one⟩)).1 rfl,
   (C8_packet_loss_extremes c8rate0 (.name "ChatChannel") (Json.str "hi") [0]
      (by intro r hr; simp only [List.mem_singleton] at hr; subst hr;
          exact ⟨le_refl 0, zero_lt_one⟩)).2 rfl⟩

theorem remove_eq_of_find?_none (c : MockActionCableConsumer) (rid : Nat)
    (h : c.subscriptionsList.find? (fun s => s.rid == rid) = none) :
    MockActionCableSubscriptions.remove c rid = (c, [], []) := by
  unfold MockActionCableSubscriptions.remove
  rw [h]

theorem find?_eraseP_none (l : List MockActionCableSubscription) (rid : Nat)
    (h : (l.map MockActionCableSubscription.rid).Nodup) :
    (l.eraseP (fun s => s.rid == rid)).find? (fun s => s.rid == rid) = none := by
  induction l with
  | nil => rfl
  | cons x xs ih =>
      have hx1 : x.rid ∉ xs.map MockActionCableSubscription.rid := (List.nodup_cons.mp h).1
      have h2 := (List.nodup_cons.mp h).2
      by_cases hx : x.rid = rid
      · rw [List.eraseP_cons]
        have hpx : (x.rid == rid) = true := by simp [hx]
        simp only [hpx, cond_true]
        apply List.find?_eq_none.mpr
        intro y hy
        intro hcontra
        have hyr : y.rid = rid := by simpa using hcontra
        apply hx1
        rw [hx, ← hyr]
        exact List.mem_map_of_mem _ hy
      · rw [List.eraseP_cons]
        have hpx : (x.rid == rid) = false := beq_eq_false_iff_ne.mpr hx
        simp only [hpx, cond_false]
        rw [List.find?_cons_of_neg _ (by simp [hx])]
        exact ih h2

/-- C9: `remove` is idempotent — after one `remove` of a record, a second
`remove` of the same record is a complete no-op: it sends no second
unsubscribe envelope, invokes no callback, and leaves the consumer exactly as
the first remove left it.  (The rids are pairwise distinct because each
models a distinct JavaScript object identity.) -/
theorem C9_remove_idempotent (c : MockActionCableConsumer) (rid : Nat)
    (hnd : (c.subscriptionsList.map MockActionCableSubscription.rid).Nodup) :
    MockActionCableSubscriptions.remove
        (MockActionCableSubscriptions.remove c rid).1 rid =
      ((MockActionCableSubscriptions.remove c rid).1, [], []) := by
  apply remove_eq_of_find?_none
  rw [remove_subscriptionsList]
  exact find?_eraseP_none _ _ hnd

/-- C9 witness: the theorem applied to the concrete one-record consumer. -/
theorem C9_remove_idempotent_witness :
    MockActionCableSubscriptions.remove
        (MockActionCableSubscriptions.remove c9w 0).1 0 =
      ((MockActionCableSubscriptions.remove c9w 0).1, [], []) :=
  C9_remove_idempotent c9w 0 (by decide)

theorem HistoryStore.read_alloc_new (σ : HistoryStore) (a : List HistoryEntry) :
    (σ.alloc a).1.read (σ.alloc a).2 = a := by
  unfold HistoryStore.alloc HistoryStore.read
  simp [List.get?_concat_length]

theorem HistoryStore.read_alloc_old (σ : HistoryStore) (a : List HistoryEntry)
    (r : Nat) (h : r < σ.arrays.length) : (σ.alloc a).1.read r = σ.read r := by
  unfold HistoryStore.alloc HistoryStore.read
  rw [List.get?_append h]

theorem HistoryStore.read_write_ne (σ : HistoryStore) (r1 r2 : Nat)
    (a : List HistoryEntry) (h : r1 ≠ r2) : (σ.write r1 a).read r2 = σ.read r2 := by
  unfold HistoryStore.write HistoryStore.read
  rw [List.get?_set_ne _ _ h]

/-- C10: `getMessageHistory` returns a fresh shallow copy of the internal
history array: overwriting the returned array with ANY contents (adding or
removing entries) leaves the consumer's internal history unchanged, and a
subsequent `getMessageHistory` call still returns the same entries as before
the mutation. -/
theorem C10_getMessageHistory_fresh_copy (σ : HistoryStore) (histRef : Nat)
    (hv : histRef < σ.arrays.length) (mutated : List HistoryEntry) :
    HistoryStore.read
        (HistoryStore.write (getMessageHistory σ histRef).1
          (getMessageHistory σ histRef).2 mutated) histRef
      = σ.read histRef ∧
    HistoryStore.read
        (getMessageHistory
          (HistoryStore.write (getMessageHistory σ histRef).1
            (getMessageHistory σ histRef).2 mutated) histRef).1
        (getMessageHistory
          (HistoryStore.write (getMessageHistory σ histRef).1
            (getMessageHistory σ histRef).2 mutated) histRef).2
      = σ.read histRef := by
  have hne : σ.arrays.length ≠ histRef := Nat.ne_of_gt hv
  have h1 : HistoryStore.read
      (HistoryStore.write (getMessageHistory σ histRef).1
        (getMessageHistory σ histRef).2 mutated) histRef = σ.read histRef := by
    have step1 := HistoryStore.read_write_ne
      (getMessageHistory σ histRef).1 (σ.arrays.length) histRef mutated hne
    have step2 := HistoryStore.read_alloc_old σ (σ.read histRef) histRef hv
    exact step1.trans step2
  refine ⟨h1, ?_⟩
  have step3 := HistoryStore.read_alloc_new
    (HistoryStore.write (getMessageHistory σ histRef).1
      (getMessageHistory σ histRef).2 mutated)
    ((HistoryStore.write (getMessageHistory σ histRef).1
      (getMessageHistory σ histRef).2 mutated).read histRef)
  exact step3.trans h1

/-- C10 witness: the theorem applied to the concrete store, clearing the
returned copy. -/
theorem C10_getMessageHistory_fresh_copy_witness :
    HistoryStore.read
        (HistoryStore.write (getMessageHistory c10store 0).1
          (getMessageHistory c10store 0).2 []) 0
      = c10store.read 0 ∧
    HistoryStore.read
        (getMessageHistory
          (HistoryStore.write (getMessageHistory c10store 0).1
            (getMessageHistory c10store 0).2 []) 0).1
        (getMessageHistory
          (HistoryStore.write (getMessageHistory c10store 0).1
            (getMessageHistory c10store 0).2 []) 0).2
      = c10store.read 0 :=
  C10_getMessageHistory_fresh_copy c10store 0 (by decide) []

end CypressActionCable
